import Mathlib

/-!
Verification of the pixelaria-auth credential core against its specification.

The development shallowly embeds the TypeScript source:

* `src/service/sessionManager.ts` — refresh-session store (create, lookup,
  optimistic-lock rotation over the `user_sessions` table);
* `src/repositories/session.repository.ts` — the repository variant of the
  session lookup and revocation;
* `src/service/tokenVerify.ts` (verifyAccessToken) and `src/service/generateJWT.ts`
  (generateJWT) — the token codec;
* `src/service/tokenRevocation.ts` — the jti revocation registry;
* `src/service/authAttempts.ts` — the brute-force attempt tracker;
* `src/services/auth.service.ts` — the orchestration flows (logout, register,
  resendVerificationEmail, requestPasswordReset).

Modelling conventions:

* Database tables become Lean lists of row structures; SQL timestamps become
  `Nat` milliseconds since epoch (`Date.now()`); the `CURRENT_TIMESTAMP` and
  `created_at` / `updated_at` / `revoked_at` audit columns, which no claim
  reads, are omitted from the row models.
* The SHA-256 digest (`hashToken`) is abstracted as an arbitrary function
  `hash : String → String` passed to every definition that hashes; concrete
  witnesses instantiate it with the injective stand-in `hashModel`.
* Randomness (`crypto.getRandomValues`, `crypto.randomUUID`) and the wall
  clock are injected as explicit parameters, mirroring the values the source
  draws at run time.
-/

/-- A row of the `user_sessions` table. `refresh_token` stores the
base64url-encoded SHA-256 of the plaintext (written by `createSession`),
never the plaintext itself. -/
structure Session where
  id : String
  user_id : String
  refresh_token : String
  expires_at : Nat
  revoked : Bool
deriving Repr, DecidableEq

/-- The `user_sessions` table. -/
abbrev SessionDb := List Session

/-- Injective stand-in for the SHA-256 digest used to instantiate witnesses;
the digest of the real code never equals its input. -/
def hashModel (s : String) : String := "sha256(" ++ s ++ ")"

/-- sessionManager.ts `createSession`: INSERT a row holding the hash of the
plaintext, `revoked = FALSE`. The row id (assigned by the database) is
injected as `newId`. -/
def createSession (hash : String → String) (db : SessionDb)
    (newId userId plainToken : String) (expiresAt : Nat) : SessionDb :=
  db ++ [⟨newId, userId, hash plainToken, expiresAt, false⟩]

/-- sessionManager.ts `findSessionByRefreshToken`: hashes the input and runs
SELECT ... WHERE refresh_token = ? LIMIT 1 — note there is no `revoked` or
`expires_at` filter in this query. -/
def findSessionByRefreshToken (hash : String → String) (db : SessionDb)
    (plainToken : String) : Option Session :=
  match db with
  | [] => none
  | s :: rest =>
    if s.refresh_token = hash plainToken then some s
    else findSessionByRefreshToken hash rest plainToken

/-- session.repository.ts `SessionRepository.findValidByRefreshToken`:
SELECT ... WHERE refresh_token = ? AND datetime(expires_at) > datetime(now)
AND revoked = 0 — the bound value is the caller-supplied string, which this
query does NOT hash. -/
def findValidByRefreshToken (db : SessionDb) (refreshToken : String)
    (nowMs : Nat) : Option Session :=
  match db with
  | [] => none
  | s :: rest =>
    if s.refresh_token = refreshToken ∧ nowMs < s.expires_at ∧ s.revoked = false
    then some s
    else findValidByRefreshToken rest refreshToken nowMs

/-- session.repository.ts `SessionRepository.revokeById`:
UPDATE user_sessions SET revoked = 1 WHERE id = ?. -/
def revokeById (db : SessionDb) (sessionId : String) : SessionDb :=
  db.map (fun s => if s.id = sessionId then { s with revoked := true } else s)

/-- The WHERE clause of the conditional UPDATE inside sessionManager.ts
`rotateSession`: id = ? AND refresh_token = <hash of the presented old
plaintext> AND revoked = FALSE. -/
def rotateRowMatches (sessionId currentHashed : String) (s : Session) : Prop :=
  s.id = sessionId ∧ s.refresh_token = currentHashed ∧ s.revoked = false

instance (sessionId currentHashed : String) (s : Session) :
    Decidable (rotateRowMatches sessionId currentHashed s) := by
  unfold rotateRowMatches; infer_instance

/-- Number of rows the conditional UPDATE touches (`result.changes`). -/
def rotateChanges (db : SessionDb) (sessionId currentHashed : String) : Nat :=
  (db.filter (fun s => decide (rotateRowMatches sessionId currentHashed s))).length

/-- Effect of the conditional UPDATE: rows satisfying the WHERE clause get
the new hash and expiry, every other row is untouched. -/
def rotateApply (db : SessionDb) (sessionId currentHashed newHashed : String)
    (newExpiresAt : Nat) : SessionDb :=
  db.map (fun s =>
    if rotateRowMatches sessionId currentHashed s then
      { s with refresh_token := newHashed, expires_at := newExpiresAt }
    else s)

/-- Outcome of `rotateSession`: either the updated table, or the thrown
`OptimisticLockError` (code `SESSION_CONFLICT`). -/
inductive RotateResult
  | ok (db : SessionDb)
  | sessionConflict
deriving Repr, DecidableEq

/-- sessionManager.ts `rotateSession`: hash both plaintexts, run the
conditional UPDATE, and throw `OptimisticLockError` when it touched zero
rows. -/
def rotateSession (hash : String → String) (db : SessionDb)
    (sessionId currentPlainToken newPlainToken : String)
    (newExpiresAt : Nat) : RotateResult :=
  let currentHashed := hash currentPlainToken
  let newHashed := hash newPlainToken
  if rotateChanges db sessionId currentHashed = 0 then .sessionConflict
  else .ok (rotateApply db sessionId currentHashed newHashed newExpiresAt)

/-- auth.service.ts `AuthService.logout`, session half: look the session up
with `SessionRepository.findValidByRefreshToken` on the caller-supplied
plaintext and revoke it when found; when nothing is found the table is left
as is and logout still reports success. (The optional access-token half only
touches the `revoked_jti` table, modelled separately by
`revokeAccessToken`.) -/
def logoutSessions (db : SessionDb) (refreshToken : String) (nowMs : Nat) :
    SessionDb :=
  match findValidByRefreshToken db refreshToken nowMs with
  | some session => revokeById db session.id
  | none => db

theorem rotateApply_of_changes_zero (db : SessionDb)
    (sid ch nh : String) (e : Nat)
    (h : rotateChanges db sid ch = 0) :
    rotateApply db sid ch nh e = db := by
  induction db with
  | nil => rfl
  | cons s rest ih =>
    simp only [rotateChanges, List.filter_cons] at h
    by_cases hm : rotateRowMatches sid ch s
    · simp [hm] at h
    · simp only [rotateApply, List.map_cons, if_neg hm]
      have : rotateChanges rest sid ch = 0 := by
        simpa [rotateChanges, hm] using h
      simpa [rotateApply] using ih this

theorem rotateChanges_after_apply (db : SessionDb)
    (sid ch nh : String) (e : Nat) (hne : nh ≠ ch) :
    rotateChanges (rotateApply db sid ch nh e) sid ch = 0 := by
  induction db with
  | nil => rfl
  | cons s rest ih =>
    simp only [rotateApply, List.map_cons] at *
    by_cases hm : rotateRowMatches sid ch s
    · have hnot : ¬ rotateRowMatches sid ch
          { s with refresh_token := nh, expires_at := e } := by
        intro hcontra
        exact hne hcontra.2.1
      simpa [rotateChanges, List.filter_cons, if_pos hm, hnot] using ih
    · have hnot : ¬ rotateRowMatches sid ch s := hm
      simpa [rotateChanges, List.filter_cons, if_neg hm, hnot] using ih

/-- C1. `rotateSession` is a compare-and-swap on the session row: when no row
satisfies (same id, stored hash = hash of the presented old plaintext,
unrevoked) the call reports `SESSION_CONFLICT` and the conditional update
leaves the table unchanged; when it succeeds the new table rewrites exactly
the guard-satisfying rows with the new hash and expiry; and a second rotation
presenting the same old plaintext against the result necessarily reports the
conflict (the hash of the fresh random replacement differs from the old
hash), so of two rotation attempts with the same old plaintext at most one
succeeds. -/
theorem rotateSession_compare_and_swap (hash : String → String)
    (db : SessionDb) (sid old n1 n2 : String) (e1 e2 : Nat)
    (hne : hash n1 ≠ hash old) :
    (rotateChanges db sid (hash old) = 0 →
      rotateSession hash db sid old n1 e1 = .sessionConflict ∧
      rotateApply db sid (hash old) (hash n1) e1 = db) ∧
    (∀ db1, rotateSession hash db sid old n1 e1 = .ok db1 →
      db1 = rotateApply db sid (hash old) (hash n1) e1 ∧
      rotateSession hash db1 sid old n2 e2 = .sessionConflict) := by
  constructor
  · intro h0
    refine ⟨?_, rotateApply_of_changes_zero db sid (hash old) (hash n1) e1 h0⟩
    simp [rotateSession, h0]
  · intro db1 hok
    by_cases h0 : rotateChanges db sid (hash old) = 0
    · simp [rotateSession, h0] at hok
    · simp only [rotateSession, if_neg h0, RotateResult.ok.injEq] at hok
      subst hok
      refine ⟨rfl, ?_⟩
      have := rotateChanges_after_apply db sid (hash old) (hash n1) e1 hne
      simp [rotateSession, this]

/-- Witness for C1 at a concrete table: one live session for user u1 whose
stored hash matches plaintext old; the first rotation succeeds and the
second reports the conflict. -/
theorem rotateSession_compare_and_swap_witness :
    hashModel "new1" ≠ hashModel "old" ∧
    rotateSession hashModel
        (rotateApply [⟨"s1", "u1", hashModel "old", 50, false⟩]
          "s1" (hashModel "old") (hashModel "new1") 90)
        "s1" "old" "new2" 99 = .sessionConflict := by
  refine ⟨by decide, ?_⟩
  have h := (rotateSession_compare_and_swap hashModel
      [⟨"s1", "u1", hashModel "old", 50, false⟩]
      "s1" "old" "new1" "new2" 90 99 (by decide)).2
      (rotateApply [⟨"s1", "u1", hashModel "old", 50, false⟩]
        "s1" (hashModel "old") (hashModel "new1") 90)
      (by decide)
  exact h.2

/-- C3. AuthService.logout looks the session up by the caller-supplied
plaintext refresh token, but sessions are stored hashed, so the row is never
found and never revoked: with the session created by `createSession` for
plaintext tok, a logout presenting tok leaves the table unchanged, the
session row is still unrevoked, and the refresh lookup (which does hash)
still finds the session — the refresh token remains usable after logout. -/
theorem logout_fails_to_revoke_session :
    logoutSessions (createSession hashModel [] "s1" "u1" "tok" 1000) "tok" 10
        = createSession hashModel [] "s1" "u1" "tok" 1000 ∧
    (∀ s ∈ logoutSessions (createSession hashModel [] "s1" "u1" "tok" 1000)
        "tok" 10, s.revoked = false) ∧
    findSessionByRefreshToken hashModel
        (logoutSessions (createSession hashModel [] "s1" "u1" "tok" 1000)
          "tok" 10) "tok"
      = some ⟨"s1", "u1", hashModel "tok", 1000, false⟩ := by
  have h1 : logoutSessions (createSession hashModel [] "s1" "u1" "tok" 1000)
      "tok" 10 = createSession hashModel [] "s1" "u1" "tok" 1000 := by decide
  refine ⟨h1, ?_, ?_⟩
  · intro s hs
    rw [h1] at hs
    simp only [createSession, List.nil_append, List.mem_singleton] at hs
    subst hs
    rfl
  · rw [h1]
    decide

/-- C5 counterexample: a revoked session whose stored hash matches the
presented plaintext is still returned by `findSessionByRefreshToken` — the
query has no revoked or expiry filter, refuting the claim that the lookup
returns none for every revoked or expired session holding the matching
hash. -/
theorem findSession_returns_revoked_row :
    findSessionByRefreshToken hashModel
        [⟨"s1", "u1", hashModel "p", 0, true⟩] "p"
      = some ⟨"s1", "u1", hashModel "p", 0, true⟩ := by
  decide

/-- C5 (amended). The two lookups split the specified behaviour:
`findSessionByRefreshToken` hashes the input and returns a row exactly when
some row holds that hash, revoked or not, expired or not (absence is the
`none` value, not an error), while the repository variant
`findValidByRefreshToken` is the one that filters unrevoked-and-unexpired
rows but compares the caller-supplied string without hashing it. -/
theorem session_lookup_semantics (hash : String → String) (db : SessionDb)
    (p tok : String) (nowMs : Nat) :
    (∀ s, findSessionByRefreshToken hash db p = some s →
      s ∈ db ∧ s.refresh_token = hash p) ∧
    (findSessionByRefreshToken hash db p = none ↔
      ∀ s ∈ db, s.refresh_token ≠ hash p) ∧
    (∀ s, findValidByRefreshToken db tok nowMs = some s →
      s ∈ db ∧ s.refresh_token = tok ∧ s.revoked = false ∧
        nowMs < s.expires_at) := by
  refine ⟨?_, ?_, ?_⟩
  · intro s hfind
    induction db with
    | nil => simp [findSessionByRefreshToken] at hfind
    | cons t rest ih =>
      by_cases hm : t.refresh_token = hash p
      · simp only [findSessionByRefreshToken, if_pos hm,
          Option.some.injEq] at hfind
        subst hfind
        exact ⟨List.mem_cons_self t rest, hm⟩
      · simp only [findSessionByRefreshToken, if_neg hm] at hfind
        have := ih hfind
        exact ⟨List.mem_cons_of_mem t this.1, this.2⟩
  · induction db with
    | nil => simp [findSessionByRefreshToken]
    | cons t rest ih =>
      by_cases hm : t.refresh_token = hash p
      · simp [findSessionByRefreshToken, if_pos hm, hm]
      · simp only [findSessionByRefreshToken, if_neg hm, ih,
          List.mem_cons]
        constructor
        · intro h s hs
          rcases hs with hs | hs
          · subst hs; exact hm
          · exact h s hs
        · intro h s hs
          exact h s (Or.inr hs)
  · intro s hfind
    induction db with
    | nil => simp [findValidByRefreshToken] at hfind
    | cons t rest ih =>
      by_cases hm : t.refresh_token = tok ∧ nowMs < t.expires_at ∧
          t.revoked = false
      · simp only [findValidByRefreshToken, if_pos hm,
          Option.some.injEq] at hfind
        subst hfind
        exact ⟨List.mem_cons_self t rest, hm.1, hm.2.2, hm.2.1⟩
      · simp only [findValidByRefreshToken, if_neg hm] at hfind
        have := ih hfind
        exact ⟨List.mem_cons_of_mem t this.1, this.2⟩

/-- Witness for the amended C5 at a concrete table: the hashing lookup
returns the revoked row and the theorem certifies it carries the matching
hash; the filtered lookup on a live row certifies unrevoked and unexpired. -/
theorem session_lookup_semantics_witness :
    ((⟨"s1", "u1", hashModel "p", 0, true⟩ : Session) ∈
        [(⟨"s1", "u1", hashModel "p", 0, true⟩ : Session)] ∧
      (hashModel "p") = hashModel "p") ∧
    ((⟨"s2", "u2", "raw", 9, false⟩ : Session) ∈
        [(⟨"s2", "u2", "raw", 9, false⟩ : Session)] ∧
      "raw" = "raw" ∧ (false = false) ∧ (5 : Nat) < 9) :=
  ⟨(session_lookup_semantics hashModel
      [⟨"s1", "u1", hashModel "p", 0, true⟩] "p" "x" 5).1
      ⟨"s1", "u1", hashModel "p", 0, true⟩ (by decide),
   by
    have h := (session_lookup_semantics hashModel
        [⟨"s2", "u2", "raw", 9, false⟩] "p" "raw" 5).2.2
        ⟨"s2", "u2", "raw", 9, false⟩ (by decide)
    exact ⟨h.1, h.2.1, h.2.2.1, h.2.2.2⟩⟩

/-! ## Token codec: generateJWT, verifyRS / verifyAccessToken, revocation registry

The three-segment wire encoding (base64url of JSON) is abstracted as a
structured value: a token either is empty (JavaScript-falsy), fails to split
and decode into three segments, or carries a decoded header, payload and
signature. Signing is modelled symbolically: a signature records the
algorithm, the key material (an identifier naming the RSA key pair for
RS256, or the shared secret itself for HS256) and the exact header and
payload bytes it covers; `crypto.subtle.verify` succeeds exactly when the
signature was produced with the matching algorithm and key over exactly
that header and payload. The JWKS network-fetch fallback of verifyRS (taken
only when no public-key PEM is configured) is modelled as yielding no key,
matching its behaviour when the fetch fails; every claim exercised here
runs on the direct-PEM path. -/

/-- A decoded JSON claim value (the claims the service issues are strings
and integers). -/
inductive ClaimVal
  | str (s : String)
  | num (n : Int)
deriving Repr, DecidableEq

/-- JOSE header: alg, typ, optional kid. -/
structure JwtHeader where
  alg : String
  typ : String
  kid : Option String
deriving Repr, DecidableEq

/-- Decoded claims segment. `claims` is the caller-supplied claim set;
`exp` (Unix seconds) and `jti` sit beside it exactly as `generateJWT`
spreads them into the full payload. Tokens minted elsewhere may omit
either, hence the options. -/
structure JwtPayload where
  claims : List (String × ClaimVal)
  exp : Option Int
  jti : Option String
deriving Repr, DecidableEq

/-- Symbolic signature: algorithm, key material, and the exact header and
payload the signature covers. -/
structure SigData where
  alg : String
  key : String
  header : JwtHeader
  payload : JwtPayload
deriving Repr, DecidableEq

/-- A decoded three-segment token. -/
structure Jwt where
  header : JwtHeader
  payload : JwtPayload
  sig : SigData
deriving Repr, DecidableEq

/-- The wire form handed to verification: the empty string, a string that
does not decode into three segments of JSON, or a decoded token. -/
inductive TokenWire
  | empty
  | malformed
  | wellFormed (jwt : Jwt)
deriving Repr, DecidableEq

/-- The environment bindings the codec reads: JWT_PRIVATE_KEY_PEM and
JWT_PUBLIC_KEY_PEM carry the identifier of the RSA key pair they belong to
(two PEMs of the same pair carry the same identifier), JWT_SECRET is the
HS256 shared secret. -/
structure EnvModel where
  jwtPrivateKeyPem : Option String
  jwtPublicKeyPem : Option String
  jwtSecret : String
deriving Repr, DecidableEq

/-- generateJWT.ts `generateJWT`: append `exp = now + expiresInSec` (the
source default for `expiresInSec` is 3600) and the fresh random `jti` to
the caller payload; sign RS256 when a private key is supplied, else HS256
with the shared secret. `nowSec` is `Math.floor(Date.now() / 1000)` and
`jtiFresh` the freshly drawn `crypto.randomUUID()`. -/
def generateJWT (payload : List (String × ClaimVal)) (legacySecret : String)
    (expiresInSec : Int) (privateKeyPem : Option String) (kid : Option String)
    (nowSec : Int) (jtiFresh : String) : Jwt :=
  let fullPayload : JwtPayload := ⟨payload, some (nowSec + expiresInSec), some jtiFresh⟩
  match privateKeyPem with
  | some pk =>
    let header : JwtHeader := ⟨"RS256", "JWT", kid⟩
    ⟨header, fullPayload, ⟨"RS256", pk, header, fullPayload⟩⟩
  | none =>
    let header : JwtHeader := ⟨"HS256", "JWT", none⟩
    ⟨header, fullPayload, ⟨"HS256", legacySecret, header, fullPayload⟩⟩

/-- The expiry test of verifyRS, `payload.exp && payload.exp < now`: an
absent exp is skipped, and so is exp = 0 (JavaScript falsy). -/
def expCheckFails (exp : Option Int) (nowSec : Int) : Bool :=
  match exp with
  | none => false
  | some e => e ≠ 0 ∧ e < nowSec

/-- tokenVerify.ts `verifyRS`: reject unless the token splits into three
segments, the header algorithm is RS256, the token is unexpired and the
signature verifies under the configured public key; on success return the
decoded payload. -/
def verifyRS (env : EnvModel) (wire : TokenWire) (nowSec : Int) :
    Option JwtPayload :=
  match wire with
  | .empty => none
  | .malformed => none
  | .wellFormed jwt =>
    if jwt.header.alg ≠ "RS256" then none
    else if expCheckFails jwt.payload.exp nowSec then none
    else match env.jwtPublicKeyPem with
      | some pub =>
        if jwt.sig = ⟨"RS256", pub, jwt.header, jwt.payload⟩
        then some jwt.payload else none
      | none => none

/-- Truthiness of a decoded string field (`payload.iss`, `payload.aud`,
`payload.jti`): present and non-empty. -/
def truthyStr : Option String → Option String
  | some s => if s = "" then none else some s
  | none => none

/-- Lookup of a named claim in the decoded caller claim set. -/
def lookupClaim (claims : List (String × ClaimVal)) (k : String) :
    Option ClaimVal :=
  match claims with
  | [] => none
  | (k1, v) :: rest => if k1 = k then some v else lookupClaim rest k

/-- The check `issuer && payload.iss !== issuer` (and its audience twin):
fires only when the caller supplied a truthy expectation and the named
claim differs from it. -/
def claimMismatch (expected : Option String)
    (claims : List (String × ClaimVal)) (name : String) : Bool :=
  match truthyStr expected with
  | some i => !(lookupClaim claims name == some (.str i))
  | none => false

/-- A row of the `revoked_jti` table (`revoked_at` audit column omitted;
`expires_at` is stored as the ISO string the caller passes). -/
structure RevokedJti where
  jti : String
  user_id : String
  expires_at : String
  reason : Option String
deriving Repr, DecidableEq

/-- The `revoked_jti` table. -/
abbrev RevokedDb := List RevokedJti

/-- tokenRevocation.ts `revokeAccessToken`: INSERT ... ON CONFLICT(jti) DO
NOTHING — a duplicate jti is a no-op, not an error. -/
def revokeAccessToken (db : RevokedDb) (jti userId expiresAt : String)
    (reason : Option String) : RevokedDb :=
  if db.any (fun r => r.jti = jti) then db
  else db ++ [⟨jti, userId, expiresAt, reason⟩]

/-- The database state verification touches: the revocation registry, a flag
telling whether the registry lookup succeeds or throws (store
availability), and the users.session_version column, which the verification
path never reads. -/
structure AuthDb where
  revokedJti : RevokedDb
  dbOk : Bool
  sessionVersionOf : List (String × Nat)
deriving Repr, DecidableEq

/-- The `SELECT jti FROM revoked_jti WHERE jti = ? LIMIT 1` lookup inside
verifyAccessToken; `.error` models the prepared statement throwing when the
store is unavailable. -/
def isRevokedQuery (db : AuthDb) (j : String) : Except Unit Bool :=
  if db.dbOk then .ok (db.revokedJti.any (fun r => r.jti = j)) else .error ()

/-- The VerifyResult record of tokenVerify.ts. -/
structure VerifyResult where
  valid : Bool
  payload : Option JwtPayload
  reason : Option String
deriving Repr, DecidableEq

/-- tokenVerify.ts `verifyAccessToken`: missing token, then verifyRS, then
the optional exact-equality issuer and audience checks, then — only when
the claims carry a truthy jti — the revocation lookup, whose result forces
reason `revoked`; an exception from the lookup is swallowed by the
surrounding try/catch and verification falls through to the valid
outcome. -/
def verifyAccessToken (env : EnvModel) (db : AuthDb) (wire : TokenWire)
    (issuer audience : Option String) (nowSec : Int) : VerifyResult :=
  match wire with
  | .empty => ⟨false, none, some "missing"⟩
  | _ =>
    match verifyRS env wire nowSec with
    | none => ⟨false, none, some "invalid_signature_or_exp"⟩
    | some payload =>
      if claimMismatch issuer payload.claims "iss" then
        ⟨false, none, some "bad_iss"⟩
      else if claimMismatch audience payload.claims "aud" then
        ⟨false, none, some "bad_aud"⟩
      else
        match truthyStr payload.jti with
        | some j =>
          match isRevokedQuery db j with
          | .ok true => ⟨false, none, some "revoked"⟩
          | .ok false => ⟨true, some payload, none⟩
          | .error _ => ⟨true, some payload, none⟩
        | none => ⟨true, some payload, none⟩

/-- tokenRevocation.ts `revokeAllUserTokens`: the body writes a console
line and nothing else — no database operation. (Its comment claims the
actual invalidation happens through a session_version comparison inside
verifyAccessToken; `verifyAccessToken` above, embedded from the source,
contains no such comparison.) -/
def revokeAllUserTokens (db : AuthDb) (userId reason : String) : AuthDb :=
  db

/-- C2. Revocation is part of verification: for a structurally valid,
unexpired token whose header says RS256 and whose signature verifies under
the configured public key, with any issuer and audience expectations
satisfied and a truthy jti in the claims, verifyAccessToken consults the
revocation registry (the store being available): if the jti is present the
outcome is invalid with reason `revoked`, and only if it is absent does
verification return valid with the decoded payload. -/
theorem verifyAccessToken_revocation_precedence (env : EnvModel) (db : AuthDb)
    (jwt : Jwt) (issuer audience : Option String) (nowSec : Int)
    (pub j : String)
    (halg : jwt.header.alg = "RS256")
    (hexp : expCheckFails jwt.payload.exp nowSec = false)
    (hpub : env.jwtPublicKeyPem = some pub)
    (hsig : jwt.sig = ⟨"RS256", pub, jwt.header, jwt.payload⟩)
    (hiss : claimMismatch issuer jwt.payload.claims "iss" = false)
    (haud : claimMismatch audience jwt.payload.claims "aud" = false)
    (hjti : truthyStr jwt.payload.jti = some j)
    (hdb : db.dbOk = true) :
    (db.revokedJti.any (fun r => r.jti = j) = true →
      verifyAccessToken env db (.wellFormed jwt) issuer audience nowSec
        = ⟨false, none, some "revoked"⟩) ∧
    (db.revokedJti.any (fun r => r.jti = j) = false →
      verifyAccessToken env db (.wellFormed jwt) issuer audience nowSec
        = ⟨true, some jwt.payload, none⟩) := by
  have hvrs : verifyRS env (.wellFormed jwt) nowSec = some jwt.payload := by
    simp [verifyRS, halg, hexp, hpub, hsig]
  constructor <;> intro hmem <;>
    simp [verifyAccessToken, hvrs, hiss, haud, hjti, isRevokedQuery, hdb, hmem]

/-- Witness for C2: a token freshly issued on the RS256 path whose jti was
recorded by `revokeAccessToken` fails verification with reason `revoked`,
and the same token against an empty registry verifies. -/
theorem verifyAccessToken_revocation_precedence_witness :
    (verifyAccessToken ⟨some "kp", some "kp", "sec"⟩
        ⟨revokeAccessToken [] "j1" "u1" "e1" none, true, []⟩
        (.wellFormed (generateJWT [("sub", .str "u1")] "sec" 3600
          (some "kp") (some "k1") 1000 "j1"))
        none none 1000
      = ⟨false, none, some "revoked"⟩) ∧
    (verifyAccessToken ⟨some "kp", some "kp", "sec"⟩ ⟨[], true, []⟩
        (.wellFormed (generateJWT [("sub", .str "u1")] "sec" 3600
          (some "kp") (some "k1") 1000 "j1"))
        none none 1000
      = ⟨true, some ⟨[("sub", .str "u1")], some 4600, some "j1"⟩, none⟩) :=
  ⟨(verifyAccessToken_revocation_precedence ⟨some "kp", some "kp", "sec"⟩
      ⟨revokeAccessToken [] "j1" "u1" "e1" none, true, []⟩
      (generateJWT [("sub", .str "u1")] "sec" 3600 (some "kp") (some "k1")
        1000 "j1")
      none none 1000 "kp" "j1" rfl (by decide) rfl rfl rfl rfl rfl rfl).1
      (by decide),
   (verifyAccessToken_revocation_precedence ⟨some "kp", some "kp", "sec"⟩
      ⟨[], true, []⟩
      (generateJWT [("sub", .str "u1")] "sec" 3600 (some "kp") (some "k1")
        1000 "j1")
      none none 1000 "kp" "j1" rfl (by decide) rfl rfl rfl rfl rfl rfl).2
      (by decide)⟩

/-- C10. The revocation check fails open: under the same premises as the
revocation-precedence theorem but with the store unavailable (the prepared
lookup throwing), the exception is swallowed and verification returns valid
with the payload — even when the jti is in the registry rows. -/
theorem verifyAccessToken_revocation_fails_open (env : EnvModel) (db : AuthDb)
    (jwt : Jwt) (issuer audience : Option String) (nowSec : Int)
    (pub j : String)
    (halg : jwt.header.alg = "RS256")
    (hexp : expCheckFails jwt.payload.exp nowSec = false)
    (hpub : env.jwtPublicKeyPem = some pub)
    (hsig : jwt.sig = ⟨"RS256", pub, jwt.header, jwt.payload⟩)
    (hiss : claimMismatch issuer jwt.payload.claims "iss" = false)
    (haud : claimMismatch audience jwt.payload.claims "aud" = false)
    (hjti : truthyStr jwt.payload.jti = some j)
    (hdb : db.dbOk = false) :
    verifyAccessToken env db (.wellFormed jwt) issuer audience nowSec
      = ⟨true, some jwt.payload, none⟩ := by
  have hvrs : verifyRS env (.wellFormed jwt) nowSec = some jwt.payload := by
    simp [verifyRS, halg, hexp, hpub, hsig]
  simp [verifyAccessToken, hvrs, hiss, haud, hjti, isRevokedQuery, hdb]

/-- Witness for C10: with the registry containing the jti but the store
lookup throwing, the otherwise valid token verifies as valid. -/
theorem verifyAccessToken_revocation_fails_open_witness :
    verifyAccessToken ⟨some "kp", some "kp", "sec"⟩
        ⟨[⟨"j1", "u1", "e1", none⟩], false, []⟩
        (.wellFormed (generateJWT [("sub", .str "u1")] "sec" 3600
          (some "kp") (some "k1") 1000 "j1"))
        none none 1000
      = ⟨true, some ⟨[("sub", .str "u1")], some 4600, some "j1"⟩, none⟩ :=
  verifyAccessToken_revocation_fails_open ⟨some "kp", some "kp", "sec"⟩
    ⟨[⟨"j1", "u1", "e1", none⟩], false, []⟩
    (generateJWT [("sub", .str "u1")] "sec" 3600 (some "kp") (some "k1")
      1000 "j1")
    none none 1000 "kp" "j1" rfl (by decide) rfl rfl rfl rfl rfl rfl

/-- C4 counterexample: a token issued on the HMAC-SHA256 fallback path (no
private key configured) does NOT round-trip — verifyAccessToken only accepts
RS256 headers, so the freshly issued HS256 token fails verification with
reason `invalid_signature_or_exp` instead of returning valid. -/
theorem hs256_roundtrip_fails :
    verifyAccessToken ⟨none, none, "sec"⟩ ⟨[], true, []⟩
        (.wellFormed (generateJWT [("sub", .str "u1")] "sec" 3600 none none
          1000 "j1"))
        none none 1000
      = ⟨false, none, some "invalid_signature_or_exp"⟩ := by
  decide

/-- C4 (amended). Round-trip holds on the RS256 private-key path only: a
token issued with ttl 3600 against the private half of the configured key
pair immediately verifies (default options), returning the original claims
plus exp = issue time + 3600 and the fresh jti; a token issued on the
HMAC-SHA256 fallback path instead fails verification with reason
`invalid_signature_or_exp` under every environment and store state, because
verifyAccessToken accepts only RS256. -/
theorem generateJWT_roundtrip (claims : List (String × ClaimVal))
    (secret kp : String) (kid : Option String) (db : AuthDb)
    (nowSec : Int) (jtiFresh : String) (hjti : jtiFresh ≠ "")
    (hfresh : db.revokedJti.any (fun r => r.jti = jtiFresh) = false) :
    verifyAccessToken ⟨some kp, some kp, secret⟩ db
        (.wellFormed (generateJWT claims secret 3600 (some kp) kid nowSec
          jtiFresh))
        none none nowSec
      = ⟨true, some ⟨claims, some (nowSec + 3600), some jtiFresh⟩, none⟩ ∧
    (∀ (env2 : EnvModel) (db2 : AuthDb),
      verifyAccessToken env2 db2
          (.wellFormed (generateJWT claims secret 3600 none none nowSec
            jtiFresh))
          none none nowSec
        = ⟨false, none, some "invalid_signature_or_exp"⟩) := by
  constructor
  · have hexp : expCheckFails (some (nowSec + 3600)) nowSec = false := by
      simp only [expCheckFails, decide_eq_false_iff_not]
      intro hcontra
      omega
    have hvrs : verifyRS ⟨some kp, some kp, secret⟩
        (.wellFormed (generateJWT claims secret 3600 (some kp) kid nowSec
          jtiFresh)) nowSec
        = some ⟨claims, some (nowSec + 3600), some jtiFresh⟩ := by
      simp [verifyRS, generateJWT, hexp]
    rcases hok : db.dbOk with _ | _ <;>
      simp [verifyAccessToken, hvrs, claimMismatch, truthyStr, hjti,
        isRevokedQuery, hok, hfresh]
  · intro env2 db2
    have hne : ("HS256" : String) ≠ "RS256" := by decide
    simp [verifyAccessToken, verifyRS, generateJWT, hne]

/-- Witness for the amended C4 at concrete inputs. -/
theorem generateJWT_roundtrip_witness :
    (("j1" : String) ≠ "") ∧
    verifyAccessToken ⟨some "kp", some "kp", "sec"⟩ ⟨[], true, []⟩
        (.wellFormed (generateJWT [("role", .str "user")] "sec" 3600
          (some "kp") none 0 "j1"))
        none none 0
      = ⟨true, some ⟨[("role", .str "user")], some 3600, some "j1"⟩, none⟩ :=
  ⟨by decide,
   (generateJWT_roundtrip [("role", .str "user")] "sec" "kp" none
      ⟨[], true, []⟩ 0 "j1" (by decide) (by decide)).1⟩

/-- C6. Access-token verification never reads the stored session_version:
for every token, environment and instant, the outcome of verifyAccessToken
is identical across any two values of the users.session_version column; and
`revokeAllUserTokens` performs no database write of its own — it returns the
store untouched. -/
theorem verifyAccessToken_ignores_session_version (env : EnvModel)
    (rev : RevokedDb) (ok : Bool) (v1 v2 : List (String × Nat))
    (wire : TokenWire) (issuer audience : Option String) (nowSec : Int) :
    verifyAccessToken env ⟨rev, ok, v1⟩ wire issuer audience nowSec
      = verifyAccessToken env ⟨rev, ok, v2⟩ wire issuer audience nowSec ∧
    (∀ (db : AuthDb) (u r : String), revokeAllUserTokens db u r = db) := by
  constructor
  · cases wire with
    | empty => rfl
    | malformed => rfl
    | wellFormed jwt => rfl
  · intro db u r
    rfl

/-! ## Attempt tracker: authAttempts.ts

Two tables, `login_attempts` keyed by (email, ip) and
`login_attempts_global` keyed by email alone, each holding an attempts
counter, a last-attempt timestamp and a nullable lock expiry. -/

/-- One counter row of either attempts table. -/
structure AttemptRow where
  attempts : Nat
  last_attempt_at : Nat
  locked_until : Option Nat
deriving Repr, DecidableEq

/-- The two attempt tables. -/
structure AttemptsDb where
  perIp : List ((String × String) × AttemptRow)
  globalByEmail : List (String × AttemptRow)
deriving Repr, DecidableEq

/-- SELECT of the single row with the given key. -/
def attemptLookup {κ : Type} [DecidableEq κ] :
    List (κ × AttemptRow) → κ → Option AttemptRow
  | [], _ => none
  | (k1, r) :: rest, k => if k1 = k then some r else attemptLookup rest k

/-- INSERT ... VALUES (1, now) ON CONFLICT DO UPDATE SET attempts =
attempts + 1, last_attempt_at = excluded.last_attempt_at. -/
def attemptUpsert {κ : Type} [DecidableEq κ]
    (l : List (κ × AttemptRow)) (k : κ) (nowMs : Nat) :
    List (κ × AttemptRow) :=
  match l with
  | [] => [(k, ⟨1, nowMs, none⟩)]
  | (k1, r) :: rest =>
    if k1 = k then
      (k1, { r with attempts := r.attempts + 1, last_attempt_at := nowMs })
        :: rest
    else (k1, r) :: attemptUpsert rest k nowMs

/-- UPDATE ... SET locked_until = ? for the given key. -/
def attemptSetLock {κ : Type} [DecidableEq κ]
    (l : List (κ × AttemptRow)) (k : κ) (lockedUntil : Nat) :
    List (κ × AttemptRow) :=
  l.map (fun p =>
    if p.1 = k then (p.1, { p.2 with locked_until := some lockedUntil })
    else p)

/-- DELETE of the row with the given key. -/
def attemptDelete {κ : Type} [DecidableEq κ]
    (l : List (κ × AttemptRow)) (k : κ) : List (κ × AttemptRow) :=
  l.filter (fun p => p.1 ≠ k)

/-- The AttemptsConfig record. -/
structure AttemptsConfig where
  maxPerIp : Nat
  lockMinutesIp : Nat
  maxGlobal : Nat
  lockMinutesGlobal : Nat
deriving Repr, DecidableEq

/-- The DEFAULTS constant of authAttempts.ts: 5 attempts / 15 minutes on
the (email, ip) scope, 10 attempts / 30 minutes on the email scope. -/
def DEFAULTS : AttemptsConfig := ⟨5, 15, 10, 30⟩

/-- Math.ceil(ms / 1000) on a non-negative millisecond difference. -/
def ceilSecondsOfMs (ms : Nat) : Nat := (ms + 999) / 1000

/-- The verdict checkLocks returns. -/
structure LockCheck where
  blocked : Bool
  retryAfterSec : Option Nat
  reason : Option String
deriving Repr, DecidableEq

/-- Second half of authAttempts.ts `checkLocks`: the email-global lock. -/
def checkLocksGlobalPart (db : AttemptsDb) (email : String) (nowMs : Nat) :
    LockCheck :=
  match attemptLookup db.globalByEmail email with
  | some row =>
    match row.locked_until with
    | some lockedMs =>
      if nowMs < lockedMs then
        ⟨true, some (ceilSecondsOfMs (lockedMs - nowMs)), some "global"⟩
      else ⟨false, none, none⟩
    | none => ⟨false, none, none⟩
  | none => ⟨false, none, none⟩

/-- authAttempts.ts `checkLocks`: consult the (email, ip) lock first, then
the email-global lock; a lock expiry in the future blocks the request with
the remaining seconds rounded up. -/
def checkLocks (db : AttemptsDb) (email ip : String) (nowMs : Nat) :
    LockCheck :=
  match attemptLookup db.perIp (email, ip) with
  | some row =>
    match row.locked_until with
    | some lockedMs =>
      if nowMs < lockedMs then
        ⟨true, some (ceilSecondsOfMs (lockedMs - nowMs)), some "ip"⟩
      else checkLocksGlobalPart db email nowMs
    | none => checkLocksGlobalPart db email nowMs
  | none => checkLocksGlobalPart db email nowMs

/-- The { status, retryAfterSec } verdict of registerFailedAttempt. -/
structure FailedAttemptVerdict where
  status : Nat
  retryAfterSec : Option Nat
deriving Repr, DecidableEq

/-- authAttempts.ts `registerFailedAttempt`: upsert-with-increment on both
scopes, re-read the post-increment counters, then lock whichever scope
reached its threshold ((email, ip) scope checked first), answering 429 with
retry-after = the configured lock duration in seconds, else answer 401. -/
def registerFailedAttempt (cfg : AttemptsConfig) (db : AttemptsDb)
    (email ip : String) (nowMs : Nat) : FailedAttemptVerdict × AttemptsDb :=
  let perIp1 := attemptUpsert db.perIp (email, ip) nowMs
  let global1 := attemptUpsert db.globalByEmail email nowMs
  let ipAttempts := match attemptLookup perIp1 (email, ip) with
    | some r => r.attempts
    | none => 0
  let globalAttempts := match attemptLookup global1 email with
    | some r => r.attempts
    | none => 0
  if cfg.maxPerIp ≤ ipAttempts then
    (⟨429, some (cfg.lockMinutesIp * 60)⟩,
      ⟨attemptSetLock perIp1 (email, ip) (nowMs + cfg.lockMinutesIp * 60000),
        global1⟩)
  else if cfg.maxGlobal ≤ globalAttempts then
    (⟨429, some (cfg.lockMinutesGlobal * 60)⟩,
      ⟨perIp1,
        attemptSetLock global1 email (nowMs + cfg.lockMinutesGlobal * 60000)⟩)
  else (⟨401, none⟩, ⟨perIp1, global1⟩)

/-- authAttempts.ts `clearAttempts`: on successful authentication DELETE the
(email, ip) row (when an ip was passed — the login flow passes it) and the
email-global row. -/
def clearAttempts (db : AttemptsDb) (email : String) (ip : Option String) :
    AttemptsDb :=
  let perIp1 := match ip with
    | some i => attemptDelete db.perIp (email, i)
    | none => db.perIp
  ⟨perIp1, attemptDelete db.globalByEmail email⟩

/-- State of the two attempt tables after consecutive failed logins for the
same (email, ip) at the listed instants. -/
def afterFailures (cfg : AttemptsConfig) (email ip : String) :
    AttemptsDb → List Nat → AttemptsDb
  | db, [] => db
  | db, t :: ts =>
    afterFailures cfg email ip (registerFailedAttempt cfg db email ip t).2 ts

theorem attemptLookup_delete {κ : Type} [DecidableEq κ]
    (l : List (κ × AttemptRow)) (k : κ) :
    attemptLookup (attemptDelete l k) k = none := by
  induction l with
  | nil => rfl
  | cons p rest ih =>
    by_cases hk : p.1 = k
    · simpa [attemptDelete, hk] using ih
    · simpa [attemptDelete, attemptLookup, hk] using ih

theorem attemptLookup_upsert_fresh {κ : Type} [DecidableEq κ]
    (l : List (κ × AttemptRow)) (k : κ) (nowMs : Nat)
    (h : attemptLookup l k = none) :
    attemptLookup (attemptUpsert l k nowMs) k = some ⟨1, nowMs, none⟩ := by
  induction l with
  | nil => simp [attemptUpsert, attemptLookup]
  | cons p rest ih =>
    rcases p with ⟨k1, r⟩
    by_cases hk : k1 = k
    · simp [attemptLookup, hk] at h
    · simp only [attemptLookup, if_neg hk] at h
      simpa [attemptUpsert, attemptLookup, hk] using ih h

theorem registerFailedAttempt_first (email ip : String) (t : Nat) :
    registerFailedAttempt DEFAULTS ⟨[], []⟩ email ip t
      = (⟨401, none⟩,
         ⟨[((email, ip), ⟨1, t, none⟩)], [(email, ⟨1, t, none⟩)]⟩) := by
  simp [registerFailedAttempt, attemptUpsert, attemptLookup, DEFAULTS]

theorem registerFailedAttempt_under (email ip : String) (n ta tb t : Nat)
    (hn : n + 1 < 5) :
    registerFailedAttempt DEFAULTS
        ⟨[((email, ip), ⟨n, ta, none⟩)], [(email, ⟨n, tb, none⟩)]⟩ email ip t
      = (⟨401, none⟩,
         ⟨[((email, ip), ⟨n + 1, t, none⟩)], [(email, ⟨n + 1, t, none⟩)]⟩) := by
  have h5 : ¬ (5 ≤ n + 1) := by omega
  have h10 : ¬ (10 ≤ n + 1) := by omega
  simp [registerFailedAttempt, attemptUpsert, attemptLookup, DEFAULTS, h5, h10]

theorem registerFailedAttempt_fifth (email ip : String) (ta tb t : Nat) :
    registerFailedAttempt DEFAULTS
        ⟨[((email, ip), ⟨4, ta, none⟩)], [(email, ⟨4, tb, none⟩)]⟩ email ip t
      = (⟨429, some 900⟩,
         ⟨[((email, ip), ⟨5, t, some (t + 900000)⟩)],
           [(email, ⟨5, t, none⟩)]⟩) := by
  simp [registerFailedAttempt, attemptUpsert, attemptLookup, attemptSetLock,
    DEFAULTS]

theorem afterFourFailures (email ip : String) (t1 t2 t3 t4 : Nat) :
    afterFailures DEFAULTS email ip ⟨[], []⟩ [t1, t2, t3, t4]
      = ⟨[((email, ip), ⟨4, t4, none⟩)], [(email, ⟨4, t4, none⟩)]⟩ := by
  simp [afterFailures, registerFailedAttempt_first,
    registerFailedAttempt_under email ip 1 t1 t1 t2 (by omega),
    registerFailedAttempt_under email ip 2 t2 t2 t3 (by omega),
    registerFailedAttempt_under email ip 3 t3 t3 t4 (by omega)]

/-- C7. Lockout arithmetic with the defaults: starting from empty counters,
the fifth failed login for the same (email, ip) crosses the per-ip
threshold and answers 429 with retry-after = lockMinutesIp * 60; a sixth
attempt within one second is then rejected by checkLocks with retryAfterSec
within 1 of lockMinutesIp * 60 = 900; and a successful authentication
deletes both the (email, ip) and the email-global counter rows, so the next
failed attempt counts from 1 again and answers 401. -/
theorem lockout_arithmetic (email ip : String) (t1 t2 t3 t4 t5 t6 : Nat)
    (h56 : t5 ≤ t6) (h1s : t6 ≤ t5 + 1000) :
    (registerFailedAttempt DEFAULTS
        (afterFailures DEFAULTS email ip ⟨[], []⟩ [t1, t2, t3, t4])
        email ip t5).1
      = ⟨429, some (DEFAULTS.lockMinutesIp * 60)⟩ ∧
    (checkLocks
        (afterFailures DEFAULTS email ip ⟨[], []⟩ [t1, t2, t3, t4, t5])
        email ip t6).blocked = true ∧
    (∃ r, (checkLocks
        (afterFailures DEFAULTS email ip ⟨[], []⟩ [t1, t2, t3, t4, t5])
        email ip t6).retryAfterSec = some r ∧ 899 ≤ r ∧ r ≤ 900) ∧
    (∀ db : AttemptsDb,
      attemptLookup (clearAttempts db email (some ip)).perIp (email, ip)
        = none ∧
      attemptLookup (clearAttempts db email (some ip)).globalByEmail email
        = none) ∧
    (∀ (db : AttemptsDb) (t : Nat),
      (registerFailedAttempt DEFAULTS (clearAttempts db email (some ip))
        email ip t).1.status = 401 ∧
      attemptLookup (registerFailedAttempt DEFAULTS
          (clearAttempts db email (some ip)) email ip t).2.perIp (email, ip)
        = some ⟨1, t, none⟩) := by
  have hdb4 := afterFourFailures email ip t1 t2 t3 t4
  have hdb5 : afterFailures DEFAULTS email ip ⟨[], []⟩ [t1, t2, t3, t4, t5]
      = ⟨[((email, ip), ⟨5, t5, some (t5 + 900000)⟩)],
          [(email, ⟨5, t5, none⟩)]⟩ := by
    have hstep : afterFailures DEFAULTS email ip ⟨[], []⟩ [t1, t2, t3, t4, t5]
        = (registerFailedAttempt DEFAULTS
            (afterFailures DEFAULTS email ip ⟨[], []⟩ [t1, t2, t3, t4])
            email ip t5).2 := by
      simp [afterFailures]
    rw [hstep, hdb4, registerFailedAttempt_fifth]
  have hlock : t6 < t5 + 900000 := by omega
  refine ⟨?_, ?_, ?_, ?_, ?_⟩
  · rw [hdb4, registerFailedAttempt_fifth]
    simp [DEFAULTS]
  · rw [hdb5]
    simp [checkLocks, attemptLookup, hlock]
  · rw [hdb5]
    refine ⟨ceilSecondsOfMs (t5 + 900000 - t6), ?_, ?_, ?_⟩
    · simp [checkLocks, attemptLookup, hlock]
    · simp only [ceilSecondsOfMs]
      omega
    · simp only [ceilSecondsOfMs]
      omega
  · intro db
    exact ⟨attemptLookup_delete _ _, attemptLookup_delete _ _⟩
  · intro db t
    have hup : attemptLookup
        (attemptUpsert (attemptDelete db.perIp (email, ip)) (email, ip) t)
        (email, ip) = some ⟨1, t, none⟩ :=
      attemptLookup_upsert_fresh _ _ _ (attemptLookup_delete _ _)
    have hupG : attemptLookup
        (attemptUpsert (attemptDelete db.globalByEmail email) email t)
        email = some ⟨1, t, none⟩ :=
      attemptLookup_upsert_fresh _ _ _ (attemptLookup_delete _ _)
    simp [registerFailedAttempt, clearAttempts, hup, hupG, DEFAULTS]

/-- Witness for C7 at email a@x.com, ip 1.2.3.4, all failures and the sixth
attempt at instant 0. -/
theorem lockout_arithmetic_witness :
    ((0 : Nat) ≤ 0 ∧ (0 : Nat) ≤ 0 + 1000) ∧
    (checkLocks
        (afterFailures DEFAULTS "a@x.com" "1.2.3.4" ⟨[], []⟩ [0, 0, 0, 0, 0])
        "a@x.com" "1.2.3.4" 0).blocked = true :=
  ⟨⟨le_refl 0, by omega⟩,
    (lockout_arithmetic "a@x.com" "1.2.3.4" 0 0 0 0 0 0 (le_refl 0)
      (by omega)).2.1⟩

/-! ## Cooldown gate and registration flows (auth.service.ts)

`email_verification_codes` and `password_reset_tokens` both hold one row
per user (user_id is the conflict key): token hash, expiry, used flag and
`last_sent_at`, the reissuance-cooldown timestamp. The user store models
the columns these flows read; the `user_profiles` writes of register,
which no claim reads, are omitted. The outbound email sender is the
external collaborator: its per-call HTTP statuses are injected as a
list, one status per attempt of the bounded retry loop. -/

/-- The columns of the `users` table these flows read. -/
structure UserRow where
  id : String
  email : String
  password_hash : String
  email_confirmed : Bool
deriving Repr, DecidableEq

/-- SELECT ... WHERE email = ? (first match). -/
def findUserByEmail : List UserRow → String → Option UserRow
  | [], _ => none
  | u :: rest, e => if u.email = e then some u else findUserByEmail rest e

/-- One row of `email_verification_codes` or `password_reset_tokens`
(`created_at` and `used_at` audit columns omitted). -/
structure SingleUseRow where
  user_id : String
  token_hash : String
  expires_at : Nat
  used : Bool
  last_sent_at : Nat
deriving Repr, DecidableEq

/-- SELECT ... WHERE user_id = ?. -/
def singleUseLookup : List SingleUseRow → String → Option SingleUseRow
  | [], _ => none
  | r :: rest, uid =>
    if r.user_id = uid then some r else singleUseLookup rest uid

/-- INSERT ... ON CONFLICT(user_id) DO UPDATE: wholesale replacement of the
single row for that user. -/
def singleUseUpsert (l : List SingleUseRow) (row : SingleUseRow) :
    List SingleUseRow :=
  match l with
  | [] => [row]
  | r :: rest =>
    if r.user_id = row.user_id then row :: rest
    else r :: singleUseUpsert rest row

/-- DELETE ... WHERE user_id = ?. -/
def singleUseDelete (l : List SingleUseRow) (uid : String) :
    List SingleUseRow :=
  l.filter (fun r => r.user_id ≠ uid)

/-- The { message, code, retryAfterSec } error record of ServiceResult. -/
structure ServiceError where
  message : String
  code : String
  retryAfterSec : Option Nat
deriving Repr, DecidableEq

/-- The caller-visible half of a ServiceResult: success flag, data.message,
error. -/
structure ServiceOutcome where
  success : Bool
  message : Option String
  error : Option ServiceError
deriving Repr, DecidableEq

/-- The 60-second reissuance window both cooldown sites declare. -/
def COOLDOWN_SECONDS : Nat := 60

/-- The generic response of requestPasswordReset, served identically for an
unregistered email and for a cooldown refusal. -/
def genericResetMessage : String :=
  "Se o e-mail estiver cadastrado, você receberá instruções para redefinir sua senha."

/-- auth.service.ts `AuthService.requestPasswordReset`: unknown email gets
the generic message; a registered user within the 60s window also gets the
generic message and no table write; otherwise the reset row is replaced
(30-minute expiry, last_sent_at = now) and the email sent — a send failure
is swallowed so the generic message is returned regardless
(`emailSendOk` is accepted and deliberately ignored, as in the source). -/
def requestPasswordReset (users : List UserRow)
    (resetTokens : List SingleUseRow) (email : String) (nowMs : Nat)
    (plainToken : String) (hash : String → String) (emailSendOk : Bool) :
    ServiceOutcome × List SingleUseRow :=
  match findUserByEmail users email with
  | none => (⟨true, some genericResetMessage, none⟩, resetTokens)
  | some user =>
    let cooldownHit : Bool :=
      match singleUseLookup resetTokens user.id with
      | some row => (nowMs - row.last_sent_at) / 1000 < COOLDOWN_SECONDS
      | none => false
    if cooldownHit then (⟨true, some genericResetMessage, none⟩, resetTokens)
    else
      (⟨true, some genericResetMessage, none⟩,
        singleUseUpsert resetTokens
          ⟨user.id, hash plainToken, nowMs + 30 * 60000, false, nowMs⟩)

/-- The cooldown refusal message of resendVerificationEmail, carrying the
precise remaining seconds. -/
def resendCooldownMessage (remaining : Nat) : String :=
  "Aguarde " ++ toString remaining ++
    " segundos antes de solicitar um novo e-mail."

/-- auth.service.ts `AuthService.resendVerificationEmail`: unknown email
and already-confirmed email are explicit errors; a resend within the 60s
window is refused with code RATE_LIMITED, the remaining seconds in both the
message and retryAfterSec; otherwise the verification row is replaced
(15-minute expiry) and the email sent, a send failure surfacing as
EMAIL_SEND_FAILED. -/
def resendVerificationEmail (users : List UserRow)
    (codes : List SingleUseRow) (email : String) (nowMs : Nat)
    (plainToken : String) (hash : String → String) (emailSendOk : Bool) :
    ServiceOutcome × List SingleUseRow :=
  match findUserByEmail users email with
  | none =>
    (⟨false, none, some ⟨"E-mail não encontrado em nossa base de dados.",
      "USER_NOT_FOUND", none⟩⟩, codes)
  | some user =>
    if user.email_confirmed then
      (⟨false, none, some ⟨"Este e-mail já está confirmado.",
        "EMAIL_ALREADY_CONFIRMED", none⟩⟩, codes)
    else
      let cooldown : Option Nat :=
        match singleUseLookup codes user.id with
        | some row =>
          let remaining :=
            COOLDOWN_SECONDS - (nowMs - row.last_sent_at) / 1000
          if 0 < remaining then some remaining else none
        | none => none
      match cooldown with
      | some remaining =>
        (⟨false, none, some ⟨resendCooldownMessage remaining,
          "RATE_LIMITED", some remaining⟩⟩, codes)
      | none =>
        let codes1 := singleUseUpsert codes
          ⟨user.id, hash plainToken, nowMs + 15 * 60000, false, nowMs⟩
        if emailSendOk then
          (⟨true, some "E-mail de verificação reenviado com sucesso. Verifique sua caixa de entrada.",
            none⟩, codes1)
        else
          (⟨false, none, some ⟨"Não foi possível enviar o e-mail de verificação. Por favor, tente novamente mais tarde.",
            "EMAIL_SEND_FAILED", none⟩⟩, codes1)

/-- C8. Cooldown visibility asymmetry: when the 60-second window refuses a
password-reset reissuance for a registered user, the caller-visible
response is exactly the generic success record also produced for an
unregistered email — byte-identical message, no error, no table write — so
the response does not reveal whether the account exists; whereas when the
window refuses an email-confirmation resend, the response is an explicit
RATE_LIMITED error whose message and retryAfterSec carry the precise
remaining seconds 60 − elapsed. -/
theorem cooldown_visibility_asymmetry
    (users usersN : List UserRow) (resetTokens codes : List SingleUseRow)
    (email emailN : String) (nowMs : Nat) (p pN : String)
    (hash : String → String) (sendOk sendOkN : Bool)
    (user : UserRow) (prow vrow : SingleUseRow)
    (hu : findUserByEmail users email = some user)
    (hp : singleUseLookup resetTokens user.id = some prow)
    (hpc : (nowMs - prow.last_sent_at) / 1000 < 60)
    (hnN : findUserByEmail usersN emailN = none)
    (hconf : user.email_confirmed = false)
    (hv : singleUseLookup codes user.id = some vrow)
    (hvc : (nowMs - vrow.last_sent_at) / 1000 < 60) :
    (requestPasswordReset users resetTokens email nowMs p hash sendOk).1
      = ⟨true, some genericResetMessage, none⟩ ∧
    (requestPasswordReset users resetTokens email nowMs p hash sendOk).2
      = resetTokens ∧
    (requestPasswordReset usersN resetTokens emailN nowMs pN hash sendOkN).1
      = ⟨true, some genericResetMessage, none⟩ ∧
    (requestPasswordReset users resetTokens email nowMs p hash sendOk).1
      = (requestPasswordReset usersN resetTokens emailN nowMs pN hash
          sendOkN).1 ∧
    (resendVerificationEmail users codes email nowMs p hash sendOk).1
      = ⟨false, none, some
          ⟨resendCooldownMessage (60 - (nowMs - vrow.last_sent_at) / 1000),
            "RATE_LIMITED",
            some (60 - (nowMs - vrow.last_sent_at) / 1000)⟩⟩ := by
  have hhit : (requestPasswordReset users resetTokens email nowMs p hash
      sendOk) = (⟨true, some genericResetMessage, none⟩, resetTokens) := by
    simp [requestPasswordReset, hu, hp, COOLDOWN_SECONDS, hpc]
  have hnone : (requestPasswordReset usersN resetTokens emailN nowMs pN hash
      sendOkN) = (⟨true, some genericResetMessage, none⟩, resetTokens) := by
    simp [requestPasswordReset, hnN]
  have hrem : 0 < COOLDOWN_SECONDS - (nowMs - vrow.last_sent_at) / 1000 := by
    simp only [COOLDOWN_SECONDS]
    omega
  refine ⟨by rw [hhit], by rw [hhit], by rw [hnone], by rw [hhit, hnone], ?_⟩
  simp [resendVerificationEmail, hu, hconf, hv, hrem, hvc, COOLDOWN_SECONDS]

/-- Witness for C8: user u1 registered a minute ago, both cooldown windows
active with 59 seconds remaining, versus an unregistered email. -/
theorem cooldown_visibility_asymmetry_witness :
    (requestPasswordReset [⟨"u1", "a@x.com", "h", false⟩]
        [⟨"u1", "th", 99, false, 0⟩] "a@x.com" 1000 "p" hashModel true).1
      = ⟨true, some genericResetMessage, none⟩ ∧
    (resendVerificationEmail [⟨"u1", "a@x.com", "h", false⟩]
        [⟨"u1", "th", 99, false, 0⟩] "a@x.com" 1000 "p" hashModel true).1
      = ⟨false, none, some ⟨resendCooldownMessage (60 - (1000 - 0) / 1000),
          "RATE_LIMITED", some (60 - (1000 - 0) / 1000)⟩⟩ := by
  have h := cooldown_visibility_asymmetry
    [⟨"u1", "a@x.com", "h", false⟩] [] [⟨"u1", "th", 99, false, 0⟩]
    [⟨"u1", "th", 99, false, 0⟩] "a@x.com" "b@x.com" 1000 "p" "p" hashModel
    true true ⟨"u1", "a@x.com", "h", false⟩ ⟨"u1", "th", 99, false, 0⟩
    ⟨"u1", "th", 99, false, 0⟩ (by decide) (by decide) (by decide)
    (by decide) (by decide) (by decide) (by decide)
  exact ⟨h.1, h.2.2.2.2⟩

/-- The retry loop of sendVerificationEmail (maxRetries = 3): one HTTP
status per attempt; a 2xx response succeeds, 429 or 5xx triggers another
attempt while attempts remain, anything else throws, and exhausting the
attempts throws. The result is whether the send completed. -/
def sendEmailWithRetries : List Nat → Nat → Bool
  | _, 0 => false
  | [], _ + 1 => false
  | r :: rest, n + 1 =>
    if 200 ≤ r ∧ r < 300 then true
    else if r = 429 ∨ 500 ≤ r then sendEmailWithRetries rest n
    else false

/-- UPDATE users SET password_hash = ? WHERE id = ? (the unconfirmed-email
re-registration path). -/
def updateUserPassword (users : List UserRow) (uid pwh : String) :
    List UserRow :=
  users.map (fun u =>
    if u.id = uid then { u with password_hash := pwh } else u)

/-- The user id a registration for this email settles on: the existing
(unconfirmed) row when there is one, otherwise the freshly drawn uuid. -/
def registeredUserId (users : List UserRow) (email newUserId : String) :
    String :=
  match findUserByEmail users email with
  | some u => u.id
  | none => newUserId

/-- The users and email_verification_codes tables register touches. -/
structure RegState where
  users : List UserRow
  codes : List SingleUseRow
deriving Repr, DecidableEq

/-- Tail of auth.service.ts `AuthService.register` after the user row is in
place: upsert the single-use verification row (15-minute expiry,
last_sent_at = now), then send the email; when the bounded-retry send
throws, the compensating DELETE removes the verification row for that user
and registration reports EMAIL_SEND_FAILED. -/
def registerFinish (st : RegState) (userId plainToken : String)
    (hash : String → String) (nowMs : Nat) (emailResponses : List Nat) :
    ServiceOutcome × RegState :=
  let codes1 := singleUseUpsert st.codes
    ⟨userId, hash plainToken, nowMs + 15 * 60000, false, nowMs⟩
  if sendEmailWithRetries emailResponses 3 then
    (⟨true, none, none⟩, ⟨st.users, codes1⟩)
  else
    (⟨false, none, some ⟨"Não foi possível enviar o e-mail de verificação. Por favor, tente novamente mais tarde.",
      "EMAIL_SEND_FAILED", none⟩⟩,
      ⟨st.users, singleUseDelete codes1 userId⟩)

/-- auth.service.ts `AuthService.register`: a confirmed existing email is
rejected; an existing unconfirmed email gets its password updated; a fresh
email gets a new user row (email_confirmed = 0); both live branches then
run `registerFinish`. The `user_profiles` writes, which no claim reads, are
omitted; `hashPw` abstracts the bcrypt hash as the session hash is
abstracted. -/
def register (st : RegState) (email password : String)
    (hashPw : String → String) (newUserId plainToken : String)
    (hash : String → String) (nowMs : Nat) (emailResponses : List Nat) :
    ServiceOutcome × RegState :=
  match findUserByEmail st.users email with
  | some u =>
    if u.email_confirmed then
      (⟨false, none, some ⟨"Este e-mail já está cadastrado. Tente fazer login ou recupere sua senha.",
        "EMAIL_ALREADY_EXISTS", none⟩⟩, st)
    else
      registerFinish ⟨updateUserPassword st.users u.id (hashPw password),
        st.codes⟩ u.id plainToken hash nowMs emailResponses
  | none =>
    registerFinish
      ⟨st.users ++ [⟨newUserId, email, hashPw password, false⟩], st.codes⟩
      newUserId plainToken hash nowMs emailResponses

theorem singleUseLookup_delete (l : List SingleUseRow) (uid : String) :
    singleUseLookup (singleUseDelete l uid) uid = none := by
  induction l with
  | nil => rfl
  | cons r rest ih =>
    by_cases hk : r.user_id = uid
    · simpa [singleUseDelete, hk] using ih
    · simpa [singleUseDelete, singleUseLookup, hk] using ih

theorem findUserByEmail_append_fresh (users : List UserRow) (email : String)
    (u : UserRow) (h : findUserByEmail users email = none)
    (hu : u.email = email) :
    findUserByEmail (users ++ [u]) email = some u := by
  induction users with
  | nil => simp [findUserByEmail, hu]
  | cons v rest ih =>
    by_cases he : v.email = email
    · simp [findUserByEmail, he] at h
    · simp only [findUserByEmail, if_neg he] at h
      simpa [findUserByEmail, he] using ih h

theorem findUserByEmail_updatePassword (users : List UserRow)
    (uid pwh email : String) (u : UserRow)
    (h : findUserByEmail users email = some u) :
    findUserByEmail (updateUserPassword users uid pwh) email
      = some (if u.id = uid then { u with password_hash := pwh } else u) := by
  induction users with
  | nil => simp [findUserByEmail] at h
  | cons v rest ih =>
    by_cases he : v.email = email
    · simp only [findUserByEmail, if_pos he, Option.some.injEq] at h
      subst h
      by_cases hid : v.id = uid <;>
        simp [updateUserPassword, findUserByEmail, hid, he]
    · simp only [findUserByEmail, if_neg he] at h
      have hrec := ih h
      by_cases hid : v.id = uid <;>
        simpa [updateUserPassword, findUserByEmail, hid, he] using hrec

/-- C9. Compensating delete on registration: when registration proceeds
(the email is not already confirmed) and the confirmation email send fails
after its bounded retries, the registration reports EMAIL_SEND_FAILED, the
just-upserted single-use verification row for the registered user is
deleted from the table, and the user row itself (created or updated) is
still present — so a retry of registration is not blocked by a stale,
unreachable token. -/
theorem register_compensating_delete (st : RegState)
    (email password : String) (hashPw hash : String → String)
    (newUserId plainToken : String) (nowMs : Nat) (rs : List Nat)
    (hfail : sendEmailWithRetries rs 3 = false)
    (hnc : ∀ u, findUserByEmail st.users email = some u →
      u.email_confirmed = false) :
    (register st email password hashPw newUserId plainToken hash nowMs
      rs).1.success = false ∧
    (register st email password hashPw newUserId plainToken hash nowMs
      rs).1.error
      = some ⟨"Não foi possível enviar o e-mail de verificação. Por favor, tente novamente mais tarde.",
        "EMAIL_SEND_FAILED", none⟩ ∧
    singleUseLookup
      (register st email password hashPw newUserId plainToken hash nowMs
        rs).2.codes (registeredUserId st.users email newUserId) = none ∧
    (∃ u, findUserByEmail
        (register st email password hashPw newUserId plainToken hash nowMs
          rs).2.users email = some u ∧
      u.id = registeredUserId st.users email newUserId) := by
  rcases hfind : findUserByEmail st.users email with _ | u
  · have hreg : register st email password hashPw newUserId plainToken hash
        nowMs rs
        = registerFinish
            ⟨st.users ++ [⟨newUserId, email, hashPw password, false⟩],
              st.codes⟩ newUserId plainToken hash nowMs rs := by
      simp [register, hfind]
    have hid : registeredUserId st.users email newUserId = newUserId := by
      simp [registeredUserId, hfind]
    rw [hreg, hid]
    simp only [registerFinish, hfail, if_neg (by simp : ¬ (false = true))]
    refine ⟨trivial, trivial, singleUseLookup_delete _ _, ?_⟩
    exact ⟨⟨newUserId, email, hashPw password, false⟩,
      findUserByEmail_append_fresh st.users email _ hfind rfl, rfl⟩
  · have hconf := hnc u hfind
    have hreg : register st email password hashPw newUserId plainToken hash
        nowMs rs
        = registerFinish
            ⟨updateUserPassword st.users u.id (hashPw password), st.codes⟩
            u.id plainToken hash nowMs rs := by
      simp [register, hfind, hconf]
    have hid : registeredUserId st.users email newUserId = u.id := by
      simp [registeredUserId, hfind]
    rw [hreg, hid]
    simp only [registerFinish, hfail, if_neg (by simp : ¬ (false = true))]
    refine ⟨trivial, trivial, singleUseLookup_delete _ _, ?_⟩
    refine ⟨{ u with password_hash := hashPw password }, ?_, rfl⟩
    have := findUserByEmail_updatePassword st.users u.id (hashPw password)
      email u hfind
    simpa using this

/-- Witness for C9: fresh registration of b@x.com whose three email-send
attempts all answer 500. -/
theorem register_compensating_delete_witness :
    sendEmailWithRetries [500, 500, 500] 3 = false ∧
    (register ⟨[], []⟩ "b@x.com" "pw" hashModel "u9" "tok" hashModel 0
      [500, 500, 500]).1.success = false :=
  ⟨by decide,
    (register_compensating_delete ⟨[], []⟩ "b@x.com" "pw" hashModel
      hashModel "u9" "tok" 0 [500, 500, 500] (by decide)
      (fun u h => by simp [findUserByEmail] at h)).1⟩
